import Mathlib

/-!
Shallow embedding of the per-cluster Context Handler (`ContextHandler` in the
source) and the cluster registry (`ClusterStore`).  TypeScript values that may
be `undefined`/`null` are modelled as `Option`; a thrown exception is an
`Except.error`; `Promise.all` over a list of async computations joined
deterministically is `List.mapM` over `Except` (the results array keeps input
order, and a rejection of any member rejects the whole).  JavaScript string
truthiness (`undefined` and `""` are falsy) is `jsTruthy`.
-/

instance {ε α : Type} [DecidableEq ε] [DecidableEq α] : DecidableEq (Except ε α) :=
  fun x y =>
    match x, y with
    | .ok a, .ok b =>
        if h : a = b then .isTrue (by rw [h])
        else .isFalse (by intro hc; cases hc; exact h rfl)
    | .error a, .error b =>
        if h : a = b then .isTrue (by rw [h])
        else .isFalse (by intro hc; cases hc; exact h rfl)
    | .ok _, .error _ => .isFalse (by intro hc; cases hc)
    | .error _, .ok _ => .isFalse (by intro hc; cases hc)

/-- JavaScript truthiness of a possibly-undefined string:
`undefined` and the empty string are falsy. -/
def jsTruthy : Option String → Bool
  | none => false
  | some s => s ≠ ""

/-- The service location returned by a telemetry probe
(`PrometheusService` in the source). -/
structure PrometheusService where
  id : String
  ns : String
  service : String
  port : Nat
  deriving DecidableEq, Repr

/-- A registered telemetry provider.  Its probe
`provider.getPrometheusService(apiClient)` is modelled by its outcome on this
cluster: it either rejects with an error, or resolves with a service or with
nothing (`null`/`undefined`). -/
structure PrometheusProvider where
  id : String
  getPrometheusService : Except String (Option PrometheusService)
  deriving DecidableEq, Repr

/-- The candidate set computed on the first line of
`ContextHandler.getPrometheusService`:
`this.prometheusProvider ? prometheusProviders.filter(p => p.id == this.prometheusProvider) : prometheusProviders`. -/
def candidates (prometheusProvider : Option String)
    (prometheusProviders : List PrometheusProvider) : List PrometheusProvider :=
  if jsTruthy prometheusProvider then
    prometheusProviders.filter (fun p => p.id == prometheusProvider.getD "")
  else
    prometheusProviders

/-- `ContextHandler.getPrometheusService`: probe every candidate provider,
join all results (`Promise.all`), take the first truthy result in candidate
order (`.filter(n => n)[0]`), and otherwise fall back to the fixed default
service.  `prometheusProvider` is the handler field `this.prometheusProvider`
(the pinned provider identifier, possibly undefined). -/
def ContextHandler.getPrometheusService (prometheusProvider : Option String)
    (prometheusProviders : List PrometheusProvider) :
    Except String PrometheusService := do
  let providers := candidates prometheusProvider prometheusProviders
  let resolvedPrometheusServices ← providers.mapM'
    (fun provider => provider.getPrometheusService)
  match (resolvedPrometheusServices.filterMap id).head? with
  | some service => pure service
  | none =>
      pure { id := "lens", ns := "lens-metrics", service := "prometheus", port := 80 }

/-- `ContextHandler.getPrometheusProvider`: when no identifier is pinned
(`!this.prometheusProvider`), resolve the service by probing, pin the resolved
service's id (`this.prometheusProvider = service.id`), then look the provider
up by the pinned id.  Returns the found provider (possibly `undefined`) and
the handler's `prometheusProvider` field after the call. -/
def ContextHandler.getPrometheusProvider
    (prometheusProviders : List PrometheusProvider)
    (prometheusProvider : Option String) :
    Except String (Option PrometheusProvider × Option String) :=
  if jsTruthy prometheusProvider then
    .ok (prometheusProviders.find? (fun p => p.id == prometheusProvider.getD ""),
      prometheusProvider)
  else do
    let service ← ContextHandler.getPrometheusService prometheusProvider prometheusProviders
    .ok (prometheusProviders.find? (fun p => p.id == service.id), some service.id)

/-- The handler's `prometheusProvider` field after a call of
`getPrometheusService`: the method body never assigns
`this.prometheusProvider`, so on success the field is unchanged (and on a
rejection the error propagates). -/
def ContextHandler.getPrometheusServicePin
    (prometheusProviders : List PrometheusProvider)
    (prometheusProvider : Option String) : Except String (Option String) :=
  (ContextHandler.getPrometheusService prometheusProvider prometheusProviders).map
    (fun _ => prometheusProvider)

/-- The parsed cluster server URL (`url.parse(kc.getCurrentCluster().server)`):
`host` includes the port part, `hostname` does not. -/
structure UrlWithStringQuery where
  protocol : String
  host : String
  hostname : String
  path : String
  deriving DecidableEq, Repr

/-- The single-key header object `{"Host": ...}` of an API target. -/
structure Headers where
  Host : String
  deriving DecidableEq, Repr

/-- The `target` part of a proxy-target descriptor. -/
structure ApiTargetTarget where
  port : Nat
  protocol : String
  host : String
  path : String
  deriving DecidableEq, Repr

/-- A proxy-target descriptor (`ServerOptions` as built by `newApiTarget`). -/
structure ApiTarget where
  changeOrigin : Bool
  timeout : Nat
  headers : Headers
  target : ApiTargetTarget
  deriving DecidableEq, Repr

/-- A running `KubeAuthProxy` child process handle: identified by the order it
was spawned in, together with the port it was bound to. -/
structure KubeAuthProxyHandle where
  spawnId : Nat
  port : Nat
  deriving DecidableEq, Repr

/-- The mutable fields of a `ContextHandler` touched by port resolution, API
target construction and the proxy process lifecycle, plus two instrumentation
counters: `allocCalls` counts invocations of the Port Allocator
(`getFreePort`), `spawnCount` counts child processes started
(`new KubeAuthProxy(...)`). -/
structure HandlerState where
  proxyPort : Option Nat
  apiTarget : Option ApiTarget
  proxyServer : Option KubeAuthProxyHandle
  allocCalls : Nat
  spawnCount : Nat
  deriving DecidableEq, Repr

def initHandlerState : HandlerState :=
  { proxyPort := none, apiTarget := none, proxyServer := none,
    allocCalls := 0, spawnCount := 0 }

/-- `ContextHandler.resolveProxyPort`, run to completion with no interleaving:
return the memoized port if set; otherwise invoke the allocator (`alloc k` is
the outcome of the k-th `getFreePort()` invocation), re-raising its error
(after logging) with the port unset, or storing and returning the fresh port.
The handler state survives a throw, as in the source. -/
def ContextHandler.resolveProxyPort (alloc : Nat → Except String Nat)
    (s : HandlerState) : Except String Nat × HandlerState :=
  match s.proxyPort with
  | some p => (.ok p, s)
  | none =>
      let s1 := { s with allocCalls := s.allocCalls + 1 }
      match alloc s.allocCalls with
      | .error e => (.error e, s1)
      | .ok serverPort => (.ok serverPort, { s1 with proxyPort := some serverPort })

/-- `ContextHandler.newApiTarget`: build a fresh descriptor around the
resolved proxy port. -/
def ContextHandler.newApiTarget (alloc : Nat → Except String Nat)
    (clusterUrl : UrlWithStringQuery) (timeout : Nat)
    (s : HandlerState) : Except String ApiTarget × HandlerState :=
  match ContextHandler.resolveProxyPort alloc s with
  | (.error e, s1) => (.error e, s1)
  | (.ok port, s1) =>
      (.ok { changeOrigin := true,
             timeout := timeout,
             headers := { Host := clusterUrl.hostname },
             target := { port := port, protocol := "http://",
                         host := "localhost", path := clusterUrl.path } }, s1)

/-- `ContextHandler.getApiTarget(isWatchRequest)`: return the cached
descriptor for a non-watch request when one exists; otherwise build a fresh
descriptor with a 4-hour timeout for watch requests and a 30-second timeout
otherwise, caching it only in the non-watch case. -/
def ContextHandler.getApiTarget (alloc : Nat → Except String Nat)
    (clusterUrl : UrlWithStringQuery) (isWatchRequest : Bool)
    (s : HandlerState) : Except String ApiTarget × HandlerState :=
  match s.apiTarget, isWatchRequest with
  | some t, false => (.ok t, s)
  | _, _ =>
      let timeout := if isWatchRequest then 4 * 60 * 60 * 1000 else 30000
      match ContextHandler.newApiTarget alloc clusterUrl timeout s with
      | (.error e, s1) => (.error e, s1)
      | (.ok apiTarget, s1) =>
          if isWatchRequest then (.ok apiTarget, s1)
          else (.ok apiTarget, { s1 with apiTarget := some apiTarget })

/-- `ContextHandler.ensureServer`: when no process handle exists, resolve the
proxy port, spawn a child proxy process bound to it and store the handle; a
call while a handle exists does nothing. -/
def ContextHandler.ensureServer (alloc : Nat → Except String Nat)
    (s : HandlerState) : Except String Unit × HandlerState :=
  match s.proxyServer with
  | some _ => (.ok (), s)
  | none =>
      match ContextHandler.resolveProxyPort alloc s with
      | (.error e, s1) => (.error e, s1)
      | (.ok proxyPort, s1) =>
          (.ok (), { s1 with
            proxyServer := some { spawnId := s1.spawnCount, port := proxyPort },
            spawnCount := s1.spawnCount + 1 })

/-- `ContextHandler.stopServer`: signal the process to exit and clear the
handle when one exists. -/
def ContextHandler.stopServer (s : HandlerState) : HandlerState :=
  match s.proxyServer with
  | some _ => { s with proxyServer := none }
  | none => s

/-- The handler operations of a sequential call sequence. -/
inductive HandlerOp
  | resolveProxyPort
  | getApiTarget (isWatchRequest : Bool)
  | ensureServer
  | stopServer
  deriving DecidableEq, Repr

/-- Run one top-level handler call to completion.  A throw propagates to that
call's caller while the handler (and its state) survives, so the sequence
continues from the post-call state either way. -/
def runOp (alloc : Nat → Except String Nat) (clusterUrl : UrlWithStringQuery)
    (op : HandlerOp) (s : HandlerState) : HandlerState :=
  match op with
  | .resolveProxyPort => (ContextHandler.resolveProxyPort alloc s).2
  | .getApiTarget w => (ContextHandler.getApiTarget alloc clusterUrl w s).2
  | .ensureServer => (ContextHandler.ensureServer alloc s).2
  | .stopServer => ContextHandler.stopServer s

/-- Run a sequence of handler calls, each completing before the next begins. -/
def runOps (alloc : Nat → Except String Nat) (clusterUrl : UrlWithStringQuery)
    (ops : List HandlerOp) (s : HandlerState) : HandlerState :=
  ops.foldl (fun acc op => runOp alloc clusterUrl op acc) s

namespace ConcurrentPort

/-!
Interleaving model of `ContextHandler.resolveProxyPort` under the
single-threaded cooperative (async/await) scheduling of the source.  The
method has exactly one suspension point, `await getFreePort()`, so an
in-flight call is in one of three phases: it has not yet run its first
segment (`start`: the memo check, and the allocator request when the memo is
unset), it is suspended in `await getFreePort()` which will hand it `port`
(`resume`: the write-back segment `this.proxyPort = serverPort; return`), or
it has returned (`done`).  Allocation is assumed to succeed here, the k-th
allocator invocation returning `alloc k`; the failing allocator is covered by
the sequential model above.
-/

inductive CallPhase
  | start
  | resume (port : Nat)
  | done (result : Nat)
  deriving DecidableEq, Repr

/-- The handler fields the in-flight calls share. -/
structure CState where
  proxyPort : Option Nat
  allocCalls : Nat
  deriving DecidableEq, Repr

/-- One atomic segment of one in-flight call. -/
def stepCall (alloc : Nat → Nat) (s : CState) : CallPhase → CState × CallPhase
  | .start =>
      match s.proxyPort with
      | some p => (s, .done p)
      | none =>
          ({ s with allocCalls := s.allocCalls + 1 }, .resume (alloc s.allocCalls))
  | .resume port => ({ s with proxyPort := some port }, .done port)
  | .done r => (s, .done r)

/-- Let in-flight call `i` take its next segment. -/
def stepIndex (alloc : Nat → Nat) (st : CState × List CallPhase) (i : Nat) :
    CState × List CallPhase :=
  match st.2.get? i with
  | none => st
  | some ph =>
      let r := stepCall alloc st.1 ph
      (r.1, st.2.set i r.2)

/-- Run a schedule: the list names, in order, which call runs its next
segment. -/
def runSchedule (alloc : Nat → Nat) (sched : List Nat)
    (st : CState × List CallPhase) : CState × List CallPhase :=
  sched.foldl (stepIndex alloc) st

/-- Run one call to completion with no interleaving. -/
def runCall (alloc : Nat → Nat) (s : CState) : CState × Nat :=
  match stepCall alloc s .start with
  | (s1, .done r) => (s1, r)
  | (s1, ph) =>
      match stepCall alloc s1 ph with
      | (s2, .done r) => (s2, r)
      | (s2, _) => (s2, 0)

/-- Run `n` calls, each completing before the next begins, collecting the
ports the calls resolve to. -/
def runSeqCalls (alloc : Nat → Nat) : Nat → CState → CState × List Nat
  | 0, s => (s, [])
  | n + 1, s =>
      let r := runCall alloc s
      let rest := runSeqCalls alloc n r.1
      (rest.1, r.2 :: rest.2)

end ConcurrentPort

/-- The `prometheusProvider` preference entry (`{type: ...}`). -/
structure PrometheusProviderPref where
  type : String
  deriving DecidableEq, Repr

/-- The explicit telemetry service location preference
(`prometheus: {namespace, service, port}`); `ns` stands for the source's
`namespace` field. -/
structure PrometheusPref where
  ns : String
  service : String
  port : Nat
  deriving DecidableEq, Repr

/-- `ClusterPreferences`: every field optional. -/
structure ClusterPreferences where
  prometheusProvider : Option PrometheusProviderPref
  prometheus : Option PrometheusPref
  clusterName : Option String
  httpsProxy : Option String
  deriving DecidableEq, Repr

/-- The JavaScript runtime error raised by a property access on
`undefined`. -/
inductive JsError
  | typeError
  deriving DecidableEq, Repr

/-- The handler fields assigned by `setClusterPreferences`. -/
structure TelemetryPrefs where
  prometheusProvider : Option String
  prometheusPath : Option String
  clusterName : String
  deriving DecidableEq, Repr

/-- `ContextHandler.setClusterPreferences(clusterPreferences?)`: the first
statement reads `clusterPreferences.prometheusProvider?.type` — the optional
chaining guards only `prometheusProvider`, not `clusterPreferences` itself,
so an absent argument raises a TypeError before the `clusterPreferences &&`
guards below it run.  With a present argument: the provider type is taken
through the optional chain, the service path is formed from the `prometheus`
entry when present (otherwise null), and the cluster name falls back to the
context name when the preference is absent or empty (JS falsy). -/
def ContextHandler.setClusterPreferences (contextName : String)
    (clusterPreferences : Option ClusterPreferences) :
    Except JsError TelemetryPrefs :=
  match clusterPreferences with
  | none => .error .typeError
  | some cp =>
      let prometheusProvider := cp.prometheusProvider.map (fun pp => pp.type)
      let prometheusPath :=
        match cp.prometheus with
        | some prom =>
            some (prom.ns ++ "/services/" ++ prom.service ++ ":" ++ toString prom.port)
        | none => none
      let clusterName :=
        match cp.clusterName with
        | some n => if n ≠ "" then n else contextName
        | none => contextName
      .ok { prometheusProvider := prometheusProvider,
            prometheusPath := prometheusPath,
            clusterName := clusterName }

/-- The cluster record handed to the `ContextHandler` constructor (the fields
the constructor reads). -/
structure Cluster where
  id : String
  contextName : String
  port : Nat
  preferences : Option ClusterPreferences
  deriving DecidableEq, Repr

/-- The final step of the `ContextHandler` constructor:
`this.setClusterPreferences(cluster.preferences)`. -/
def ContextHandler.constructPrefs (cluster : Cluster) :
    Except JsError TelemetryPrefs :=
  ContextHandler.setClusterPreferences cluster.contextName cluster.preferences

/-- A persisted cluster record (`ClusterBaseInfo`): exactly the fields
`storeCluster` persists. -/
structure ClusterBaseInfo where
  id : String
  kubeConfigPath : String
  contextName : String
  preferences : Option ClusterPreferences
  workspace : String
  deriving DecidableEq, Repr

/-- `ClusterStore.getAllClusters`: read the stored record list
(`this.store.get("clusters", [])`). -/
def ClusterStore.getAllClusters (clusters : List ClusterBaseInfo) :
    List ClusterBaseInfo :=
  clusters

/-- `ClusterStore.storeCluster`: build the storable subset of the record,
then upsert it by id — `findIndex` locates an existing record with the same
id; `-1` (here `none`) appends, otherwise the record at the found index is
overwritten — and write the list back. -/
def ClusterStore.storeCluster (clusters : List ClusterBaseInfo)
    (cluster : ClusterBaseInfo) : List ClusterBaseInfo :=
  let storable : ClusterBaseInfo :=
    { id := cluster.id,
      kubeConfigPath := cluster.kubeConfigPath,
      contextName := cluster.contextName,
      preferences := cluster.preferences,
      workspace := cluster.workspace }
  match clusters.findIdx? (fun cl => cl.id == cluster.id) with
  | none => clusters ++ [storable]
  | some index => clusters.set index storable

/-! ## Concrete fixtures used by witnesses and counterexamples -/

/-- A parsed cluster server URL whose `host` carries a port part, so that
`host` and `hostname` differ. -/
def wUrl : UrlWithStringQuery :=
  { protocol := "https:", host := "cluster.example.com:6443",
    hostname := "cluster.example.com", path := "/base" }

/-- An allocator that always hands out port 4780. -/
def wAlloc : Nat → Except String Nat := fun _ => .ok 4780

/-- The non-watch descriptor the handler builds for `wUrl` on port 4780. -/
def wTarget : ApiTarget :=
  { changeOrigin := true, timeout := 30000,
    headers := { Host := "cluster.example.com" },
    target := { port := 4780, protocol := "http://",
                host := "localhost", path := "/base" } }

/-- A handler state holding the resolved port 4780 and the cached non-watch
descriptor `wTarget`. -/
def wCachedState : HandlerState :=
  { proxyPort := some 4780, apiTarget := some wTarget, proxyServer := none,
    allocCalls := 1, spawnCount := 0 }

/-- A handler state with the port resolved and a child proxy process
running. -/
def wProcState : HandlerState :=
  { proxyPort := some 4780, apiTarget := none,
    proxyServer := some { spawnId := 0, port := 4780 },
    allocCalls := 1, spawnCount := 1 }

/-- A sequence of handler calls exercising every operation. -/
def wOps : List HandlerOp :=
  [.resolveProxyPort, .getApiTarget true, .getApiTarget false,
   .ensureServer, .stopServer, .ensureServer, .resolveProxyPort]

/-! ## Helper lemmas -/

lemma candidates_subset (prometheusProvider : Option String)
    (prometheusProviders : List PrometheusProvider) (p : PrometheusProvider)
    (hp : p ∈ candidates prometheusProvider prometheusProviders) :
    p ∈ prometheusProviders := by
  unfold candidates at hp
  split at hp
  · exact (List.mem_filter.mp hp).1
  · exact hp

lemma mapM_probe_error (l₁ l₂ : List PrometheusProvider)
    (q : PrometheusProvider) (e : String)
    (h₁ : ∀ p ∈ l₁, ∃ v, p.getPrometheusService = .ok v)
    (he : q.getPrometheusService = .error e) :
    (l₁ ++ q :: l₂).mapM' (fun p => p.getPrometheusService) =
      (.error e : Except String (List (Option PrometheusService))) := by
  induction l₁ with
  | nil => simp [List.mapM'_cons, he, Bind.bind, Except.bind]
  | cons a l ih =>
      obtain ⟨v, hv⟩ := h₁ a (by simp)
      have hrec := ih (fun p hp => h₁ p (by simp [hp]))
      simp [List.mapM'_cons, hv, hrec, Bind.bind, Except.bind]

lemma mapM_probe_all_none (l : List PrometheusProvider)
    (h : ∀ p ∈ l, p.getPrometheusService = .ok none) :
    l.mapM' (fun p => p.getPrometheusService) =
      .ok (List.replicate l.length (none : Option PrometheusService)) := by
  induction l with
  | nil => rfl
  | cons a t ih =>
      have ha := h a (by simp)
      have hrec := ih (fun p hp => h p (by simp [hp]))
      simp [List.mapM'_cons, ha, hrec, List.replicate, Bind.bind, Except.bind,
        Pure.pure, Except.pure]

lemma findSome?_id_replicate_none (n : Nat) :
    (List.replicate n (none : Option PrometheusService)).findSome? id = none := by
  induction n with
  | zero => rfl
  | succ m ih => simp [List.replicate, ih]

/-! ## Claims about telemetry provider resolution -/

/-- Claim C2: the claim asserts that a probe error is recovered locally and
never propagated out of getPrometheusService.  On the code this is false:
with candidate providers A (probe rejects with "boom") and B (probe matches),
getPrometheusService itself rejects with "boom" instead of returning B's
match — there is no local recovery around the probes joined by Promise.all. -/
theorem getPrometheusService_probe_error_counterexample :
    ContextHandler.getPrometheusService none
      [⟨"A", .error "boom"⟩, ⟨"B", .ok (some ⟨"B", "monitoring", "prom-svc", 9090⟩)⟩] =
      .error "boom"
    ∧ (.error "boom" : Except String PrometheusService) ≠
      .ok ⟨"B", "monitoring", "prom-svc", 9090⟩ := by
  exact ⟨rfl, by decide⟩

/-- Claim C2 (amended): a probe error is not recovered: when every provider
before q probes successfully and q's probe rejects with e, the whole
getPrometheusService call rejects with e, regardless of the providers after
q; no provider's result participates in selection. -/
theorem getPrometheusService_probe_error_propagates
    (l₁ l₂ : List PrometheusProvider) (q : PrometheusProvider) (e : String)
    (h₁ : ∀ p ∈ l₁, ∃ v, p.getPrometheusService = .ok v)
    (he : q.getPrometheusService = .error e) :
    ContextHandler.getPrometheusService none (l₁ ++ q :: l₂) = .error e := by
  have hm := mapM_probe_error l₁ l₂ q e h₁ he
  simp [ContextHandler.getPrometheusService, candidates, jsTruthy, hm,
    Bind.bind, Except.bind]

theorem getPrometheusService_probe_error_propagates_witness :
    (∀ p ∈ [(⟨"Z", .ok none⟩ : PrometheusProvider)],
        ∃ v, p.getPrometheusService = .ok v)
    ∧ ContextHandler.getPrometheusService none
        ([⟨"Z", .ok none⟩] ++ (⟨"A", .error "probe failed"⟩ : PrometheusProvider) ::
          [⟨"B", .ok (some ⟨"B", "monitoring", "prom-svc", 9090⟩)⟩]) =
        .error "probe failed" := by
  refine ⟨?_, ?_⟩
  · intro p hp
    simp only [List.mem_singleton] at hp
    exact ⟨none, by rw [hp]⟩
  · exact getPrometheusService_probe_error_propagates
      [⟨"Z", .ok none⟩] [⟨"B", .ok (some ⟨"B", "monitoring", "prom-svc", 9090⟩)⟩]
      ⟨"A", .error "probe failed"⟩ "probe failed"
      (fun p hp => by
        simp only [List.mem_singleton] at hp
        exact ⟨none, by rw [hp]⟩)
      rfl

/-- Claim C3: with no pinned provider identifier, getPrometheusService
selects the first non-empty probe result in candidate-list (declaration)
order: for providers [A, B, C] where A resolves to absent and B and C both
resolve to matches, the result is B's match (the joined result array keeps
the candidate order, so completion order plays no part in the model). -/
theorem getPrometheusService_first_in_order
    (idA idB idC : String) (sB sC : PrometheusService) :
    ContextHandler.getPrometheusService none
      [⟨idA, .ok none⟩, ⟨idB, .ok (some sB)⟩, ⟨idC, .ok (some sC)⟩] = .ok sB := rfl

/-- Claim C7: the claim names the fallback identifier "default"; on the code
the fallback identifier is "lens".  With the single provider A probing
successfully with no match, getPrometheusService resolves to
{id: "lens", namespace: "lens-metrics", service: "prometheus", port: 80},
which differs from the claimed identifier. -/
theorem getPrometheusService_fallback_id_counterexample :
    ContextHandler.getPrometheusService none [⟨"A", .ok none⟩] =
      .ok ⟨"lens", "lens-metrics", "prometheus", 80⟩
    ∧ "lens" ≠ "default" := by
  exact ⟨rfl, by decide⟩

/-- Claim C7 (amended): when every candidate probe succeeds with no match,
getPrometheusService resolves to the fixed default service: identifier
"lens", namespace "lens-metrics" (the product-prefixed metrics namespace),
service "prometheus", port 80. -/
theorem getPrometheusService_fallback
    (prometheusProvider : Option String)
    (prometheusProviders : List PrometheusProvider)
    (h : ∀ p ∈ prometheusProviders, p.getPrometheusService = .ok none) :
    ContextHandler.getPrometheusService prometheusProvider prometheusProviders =
      .ok { id := "lens", ns := "lens-metrics", service := "prometheus", port := 80 } := by
  have hm := mapM_probe_all_none (candidates prometheusProvider prometheusProviders)
    (fun p hp => h p (candidates_subset _ _ p hp))
  simp [ContextHandler.getPrometheusService, hm, Bind.bind, Except.bind,
    Pure.pure, Except.pure, findSome?_id_replicate_none]

theorem getPrometheusService_fallback_witness :
    (∀ p ∈ [(⟨"A", .ok none⟩ : PrometheusProvider), ⟨"B", .ok none⟩],
        p.getPrometheusService = .ok none)
    ∧ ContextHandler.getPrometheusService none [⟨"A", .ok none⟩, ⟨"B", .ok none⟩] =
        .ok { id := "lens", ns := "lens-metrics", service := "prometheus", port := 80 } := by
  refine ⟨by decide, ?_⟩
  exact getPrometheusService_fallback none [⟨"A", .ok none⟩, ⟨"B", .ok none⟩] (by decide)

/-- Claim C4: the claim asserts that after the first successful probed
resolution via getPrometheusService the resolved identifier is pinned on the
handler.  On the code this is false: getPrometheusService never assigns
this.prometheusProvider.  With providers A (no match) and B (match), the
resolution succeeds with B's service, yet the field after the call is still
unset and the next resolution's candidate set is still the full two-provider
list rather than the pinned singleton. -/
theorem getPrometheusService_no_pinning_counterexample :
    ContextHandler.getPrometheusService none
      [⟨"A", .ok none⟩, ⟨"B", .ok (some ⟨"B", "monitoring", "prometheus", 9090⟩)⟩] =
      .ok ⟨"B", "monitoring", "prometheus", 9090⟩
    ∧ ContextHandler.getPrometheusServicePin
        [⟨"A", .ok none⟩, ⟨"B", .ok (some ⟨"B", "monitoring", "prometheus", 9090⟩)⟩]
        none = .ok none
    ∧ candidates none
        [⟨"A", .ok none⟩, ⟨"B", .ok (some ⟨"B", "monitoring", "prometheus", 9090⟩)⟩] =
        [⟨"A", .ok none⟩, ⟨"B", .ok (some ⟨"B", "monitoring", "prometheus", 9090⟩)⟩]
    ∧ (none : Option String) ≠ some "B" := by
  exact ⟨rfl, rfl, rfl, by decide⟩

/-- Claim C4 (amended): the pinning happens in getPrometheusProvider, not in
getPrometheusService.  getPrometheusService leaves the handler's identifier
unchanged; when no identifier is pinned and probing resolves to a service,
getPrometheusProvider pins that service's identifier, and a resolution with a
pinned identifier restricts its candidate set to the providers carrying that
identifier. -/
theorem getPrometheusProvider_pins
    (prometheusProviders : List PrometheusProvider)
    (prometheusProvider : Option String) (service : PrometheusService)
    (hpin : jsTruthy prometheusProvider = false)
    (hres : ContextHandler.getPrometheusService prometheusProvider prometheusProviders =
      .ok service)
    (hid : service.id ≠ "") :
    ContextHandler.getPrometheusProvider prometheusProviders prometheusProvider =
      .ok (prometheusProviders.find? (fun p => p.id == service.id), some service.id)
    ∧ candidates (some service.id) prometheusProviders =
        prometheusProviders.filter (fun p => p.id == service.id)
    ∧ ContextHandler.getPrometheusServicePin prometheusProviders prometheusProvider =
        .ok prometheusProvider := by
  refine ⟨?_, ?_, ?_⟩
  · simp [ContextHandler.getPrometheusProvider, hpin, hres, Bind.bind, Except.bind]
  · simp [candidates, jsTruthy, hid]
  · simp [ContextHandler.getPrometheusServicePin, hres, Except.map]

theorem getPrometheusProvider_pins_witness :
    (jsTruthy none = false
      ∧ ContextHandler.getPrometheusService none
          [⟨"A", .ok none⟩, ⟨"B", .ok (some ⟨"B", "monitoring", "prometheus", 9090⟩)⟩] =
          .ok ⟨"B", "monitoring", "prometheus", 9090⟩
      ∧ ("B" : String) ≠ "")
    ∧ (ContextHandler.getPrometheusProvider
        [⟨"A", .ok none⟩, ⟨"B", .ok (some ⟨"B", "monitoring", "prometheus", 9090⟩)⟩]
        none =
        .ok ([⟨"A", .ok none⟩,
              ⟨"B", .ok (some ⟨"B", "monitoring", "prometheus", 9090⟩)⟩].find?
            (fun p => p.id == ("B" : String)), some "B")
      ∧ candidates (some "B")
          [⟨"A", .ok none⟩, ⟨"B", .ok (some ⟨"B", "monitoring", "prometheus", 9090⟩)⟩] =
          [⟨"A", .ok none⟩,
           ⟨"B", .ok (some ⟨"B", "monitoring", "prometheus", 9090⟩)⟩].filter
            (fun p => p.id == ("B" : String))
      ∧ ContextHandler.getPrometheusServicePin
          [⟨"A", .ok none⟩, ⟨"B", .ok (some ⟨"B", "monitoring", "prometheus", 9090⟩)⟩]
          none = .ok none) := by
  refine ⟨⟨rfl, rfl, by decide⟩, ?_⟩
  exact getPrometheusProvider_pins
    [⟨"A", .ok none⟩, ⟨"B", .ok (some ⟨"B", "monitoring", "prometheus", 9090⟩)⟩]
    none ⟨"B", "monitoring", "prometheus", 9090⟩ rfl rfl (by decide)

/-- Claim C10: setClusterPreferences declares its parameter optional but
dereferences it unconditionally: its first statement reads
clusterPreferences.prometheusProvider?.type, whose optional chaining guards
only the prometheusProvider member, so an absent argument raises a TypeError
before any presence check — including via the constructor, which applies
cluster.preferences as its last step.  A supplied preferences object is
exactly the precondition under which the call succeeds. -/
theorem setClusterPreferences_absent_throws :
    (∀ contextName, ContextHandler.setClusterPreferences contextName none =
      .error .typeError)
    ∧ (∀ contextName clusterPreferences, ∃ r,
        ContextHandler.setClusterPreferences contextName (some clusterPreferences) =
          .ok r)
    ∧ (∀ id contextName port, ContextHandler.constructPrefs
        { id := id, contextName := contextName, port := port, preferences := none } =
        .error .typeError) :=
  ⟨fun _ => rfl, fun _ _ => ⟨_, rfl⟩, fun _ _ _ => rfl⟩

/-! ## Claims about proxy port and API target resolution -/

lemma resolveProxyPort_resolved (alloc : Nat → Except String Nat)
    (s : HandlerState) (p : Nat) (hp : s.proxyPort = some p) :
    ContextHandler.resolveProxyPort alloc s = (.ok p, s) := by
  simp [ContextHandler.resolveProxyPort, hp]

lemma resolveProxyPort_apiTarget_unchanged (alloc : Nat → Except String Nat)
    (s : HandlerState) :
    (ContextHandler.resolveProxyPort alloc s).2.apiTarget = s.apiTarget := by
  cases hp : s.proxyPort with
  | some p => simp [ContextHandler.resolveProxyPort, hp]
  | none =>
      cases ha : alloc s.allocCalls with
      | error e => simp [ContextHandler.resolveProxyPort, hp, ha]
      | ok v => simp [ContextHandler.resolveProxyPort, hp, ha]

lemma newApiTarget_ok (alloc : Nat → Except String Nat) (u : UrlWithStringQuery)
    (timeout : Nat) (s s1 : HandlerState) (port : Nat)
    (h : ContextHandler.resolveProxyPort alloc s = (.ok port, s1)) :
    ContextHandler.newApiTarget alloc u timeout s =
      (.ok { changeOrigin := true, timeout := timeout,
             headers := { Host := u.hostname },
             target := { port := port, protocol := "http://",
                         host := "localhost", path := u.path } }, s1) := by
  simp [ContextHandler.newApiTarget, h]

lemma newApiTarget_apiTarget_unchanged (alloc : Nat → Except String Nat)
    (u : UrlWithStringQuery) (timeout : Nat) (s : HandlerState) :
    (ContextHandler.newApiTarget alloc u timeout s).2.apiTarget = s.apiTarget := by
  have h2 := resolveProxyPort_apiTarget_unchanged alloc s
  rcases hr : ContextHandler.resolveProxyPort alloc s with ⟨res, s1⟩
  rw [hr] at h2
  cases res with
  | error e => simpa [ContextHandler.newApiTarget, hr] using h2
  | ok port => simpa [ContextHandler.newApiTarget, hr] using h2

lemma getApiTarget_watch_eq (alloc : Nat → Except String Nat)
    (u : UrlWithStringQuery) (s : HandlerState) :
    ContextHandler.getApiTarget alloc u true s =
      ContextHandler.newApiTarget alloc u (4 * 60 * 60 * 1000) s := by
  rcases hn : ContextHandler.newApiTarget alloc u (4 * 60 * 60 * 1000) s with ⟨res, s1⟩
  cases hA : s.apiTarget with
  | none => cases res <;> simp [ContextHandler.getApiTarget, hA, hn]
  | some t => cases res <;> simp [ContextHandler.getApiTarget, hA, hn]

/-- Claim C5: getApiTarget(false) computes a descriptor with a 30-second
timeout and caches it, and a later non-watch call returns the identical
cached descriptor with no state change; getApiTarget(true) always builds a
fresh descriptor with a 4-hour timeout, never stores it in the cache, and
never returns a previously cached non-watch descriptor even when one exists
(the fresh watch descriptor carries the 4-hour timeout, so it differs from
any cached 30-second descriptor). -/
theorem getApiTarget_caching
    (alloc : Nat → Except String Nat) (u : UrlWithStringQuery)
    (s : HandlerState) (t tc : ApiTarget) :
    (s.apiTarget = none → ∀ t1 s1,
        ContextHandler.getApiTarget alloc u false s = (.ok t1, s1) →
        t1.timeout = 30000 ∧ s1.apiTarget = some t1)
    ∧ (s.apiTarget = some t →
        ContextHandler.getApiTarget alloc u false s = (.ok t, s))
    ∧ ContextHandler.getApiTarget alloc u true s =
        ContextHandler.newApiTarget alloc u (4 * 60 * 60 * 1000) s
    ∧ (ContextHandler.getApiTarget alloc u true s).2.apiTarget = s.apiTarget
    ∧ (s.apiTarget = some tc → tc.timeout = 30000 → ∀ t1 s1,
        ContextHandler.getApiTarget alloc u true s = (.ok t1, s1) → t1 ≠ tc) := by
  refine ⟨?_, ?_, getApiTarget_watch_eq alloc u s, ?_, ?_⟩
  · intro h0 t1 s1 hcall
    rcases hr : ContextHandler.resolveProxyPort alloc s with ⟨res, s2⟩
    cases res with
    | error e =>
        rw [ContextHandler.getApiTarget.eq_def] at hcall
        simp [h0, ContextHandler.newApiTarget, hr] at hcall
    | ok port =>
        have hn := newApiTarget_ok alloc u 30000 s s2 port hr
        rw [ContextHandler.getApiTarget.eq_def] at hcall
        simp only [h0] at hcall
        simp [hn] at hcall
        obtain ⟨ht1, hs1⟩ := hcall
        subst ht1
        simp [← hs1]
  · intro hA
    simp [ContextHandler.getApiTarget, hA]
  · rw [getApiTarget_watch_eq alloc u s]
    exact newApiTarget_apiTarget_unchanged alloc u (4 * 60 * 60 * 1000) s
  · intro hA htc t1 s1 hcall
    rw [getApiTarget_watch_eq alloc u s] at hcall
    rcases hr : ContextHandler.resolveProxyPort alloc s with ⟨res, s2⟩
    cases res with
    | error e =>
        simp [ContextHandler.newApiTarget, hr] at hcall
    | ok port =>
        have hn := newApiTarget_ok alloc u (4 * 60 * 60 * 1000) s s2 port hr
        rw [hn] at hcall
        simp at hcall
        obtain ⟨ht1, _⟩ := hcall
        intro hcontra
        rw [hcontra] at ht1
        rw [← ht1] at htc
        simp at htc

theorem getApiTarget_caching_witness :
    initHandlerState.apiTarget = none
    ∧ (wTarget.timeout = 30000
        ∧ ({ proxyPort := some 4780, apiTarget := some wTarget,
             proxyServer := none, allocCalls := 1,
             spawnCount := 0 } : HandlerState).apiTarget = some wTarget)
    ∧ wCachedState.apiTarget = some wTarget
    ∧ ContextHandler.getApiTarget wAlloc wUrl false wCachedState =
        (.ok wTarget, wCachedState) := by
  refine ⟨rfl, ?_, rfl, ?_⟩
  · exact (getApiTarget_caching wAlloc wUrl initHandlerState wTarget wTarget).1 rfl
      wTarget
      { proxyPort := some 4780, apiTarget := some wTarget, proxyServer := none,
        allocCalls := 1, spawnCount := 0 } rfl
  · exact (getApiTarget_caching wAlloc wUrl wCachedState wTarget wTarget).2.1 rfl

/-- Claim C8: the claim gives the descriptor shape with target protocol
"http" and a Host header equal to the original cluster URL's host.  On the
code the protocol string is "http://" (trailing slashes included) and the
Host header is the URL's hostname (the host with its port part stripped):
for wUrl, whose host is "cluster.example.com:6443", the built descriptor
carries Host "cluster.example.com" and protocol "http://". -/
theorem newApiTarget_shape_counterexample :
    (ContextHandler.newApiTarget wAlloc wUrl 30000 initHandlerState).1.map
      (fun t => t.target.protocol) = .ok "http://"
    ∧ (ContextHandler.newApiTarget wAlloc wUrl 30000 initHandlerState).1.map
      (fun t => t.headers.Host) = .ok "cluster.example.com"
    ∧ ("http://" : String) ≠ "http"
    ∧ ("cluster.example.com" : String) ≠ wUrl.host := by
  exact ⟨rfl, rfl, by decide, by decide⟩

/-- Claim C8 (amended): whenever the proxy port resolves, the descriptor
built by newApiTarget is {changeOrigin: true, the given timeout, headers:
{Host: the cluster URL's hostname (port part stripped)}, target: {port: the
resolved proxy port, protocol: "http://", host: "localhost", path: the
cluster URL's path}}. -/
theorem newApiTarget_shape (alloc : Nat → Except String Nat)
    (u : UrlWithStringQuery) (timeout : Nat) (s s1 : HandlerState) (port : Nat)
    (h : ContextHandler.resolveProxyPort alloc s = (.ok port, s1)) :
    ContextHandler.newApiTarget alloc u timeout s =
      (.ok { changeOrigin := true, timeout := timeout,
             headers := { Host := u.hostname },
             target := { port := port, protocol := "http://",
                         host := "localhost", path := u.path } }, s1) :=
  newApiTarget_ok alloc u timeout s s1 port h

theorem newApiTarget_shape_witness :
    ContextHandler.resolveProxyPort wAlloc initHandlerState =
      (.ok 4780, { proxyPort := some 4780, apiTarget := none,
                   proxyServer := none, allocCalls := 1, spawnCount := 0 })
    ∧ ContextHandler.newApiTarget wAlloc wUrl 30000 initHandlerState =
      (.ok wTarget, { proxyPort := some 4780, apiTarget := none,
                      proxyServer := none, allocCalls := 1, spawnCount := 0 }) := by
  refine ⟨rfl, ?_⟩
  exact newApiTarget_shape wAlloc wUrl 30000 initHandlerState
    { proxyPort := some 4780, apiTarget := none, proxyServer := none,
      allocCalls := 1, spawnCount := 0 } 4780 rfl

/-! ## Claims about the port and process invariant -/

lemma runOps_cons (alloc : Nat → Except String Nat) (u : UrlWithStringQuery)
    (op : HandlerOp) (ops : List HandlerOp) (s : HandlerState) :
    runOps alloc u (op :: ops) s = runOps alloc u ops (runOp alloc u op s) := rfl

lemma runOp_preserves_port (alloc : Nat → Except String Nat)
    (u : UrlWithStringQuery) (op : HandlerOp) (s : HandlerState) (p : Nat)
    (hp : s.proxyPort = some p) :
    (runOp alloc u op s).proxyPort = some p
    ∧ (runOp alloc u op s).allocCalls = s.allocCalls := by
  have hres := resolveProxyPort_resolved alloc s p hp
  cases op with
  | resolveProxyPort => simp [runOp, hres, hp]
  | getApiTarget w =>
      cases hA : s.apiTarget with
      | some t =>
          cases w <;>
            simp [runOp, ContextHandler.getApiTarget, hA, hres,
              ContextHandler.newApiTarget, hp]
      | none =>
          cases w <;>
            simp [runOp, ContextHandler.getApiTarget, hA, hres,
              ContextHandler.newApiTarget, hp]
  | ensureServer =>
      cases hS : s.proxyServer with
      | some h => simp [runOp, ContextHandler.ensureServer, hS, hp]
      | none => simp [runOp, ContextHandler.ensureServer, hS, hres, hp]
  | stopServer =>
      cases hS : s.proxyServer with
      | some h => simp [runOp, ContextHandler.stopServer, hS, hp]
      | none => simp [runOp, ContextHandler.stopServer, hS, hp]

lemma runOps_preserves_port (alloc : Nat → Except String Nat)
    (u : UrlWithStringQuery) (ops : List HandlerOp) :
    ∀ s p, s.proxyPort = some p →
      (runOps alloc u ops s).proxyPort = some p
      ∧ (runOps alloc u ops s).allocCalls = s.allocCalls := by
  induction ops with
  | nil => intro s p hp; exact ⟨hp, rfl⟩
  | cons op ops ih =>
      intro s p hp
      obtain ⟨h1, h2⟩ := runOp_preserves_port alloc u op s p hp
      obtain ⟨h3, h4⟩ := ih (runOp alloc u op s) p h1
      rw [runOps_cons]
      exact ⟨h3, h4.trans h2⟩

/-- Claim C6: the sequential port/process invariant: once resolveProxyPort
has resolved a port, every later call (after any sequence of handler
operations, each run to completion) returns that same port without invoking
the allocator again; and while a process handle exists, ensureServer is a
no-op (it neither spawns a second child process nor changes any state), so a
second ensureServer without an intervening stopServer starts no additional
process. -/
theorem handler_single_port_and_process
    (alloc : Nat → Except String Nat) (u : UrlWithStringQuery)
    (ops : List HandlerOp) (s : HandlerState) (p : Nat)
    (handle : KubeAuthProxyHandle) :
    (s.proxyPort = some p →
      ContextHandler.resolveProxyPort alloc s = (.ok p, s)
      ∧ (runOps alloc u ops s).proxyPort = some p
      ∧ (runOps alloc u ops s).allocCalls = s.allocCalls
      ∧ ContextHandler.resolveProxyPort alloc (runOps alloc u ops s) =
          (.ok p, runOps alloc u ops s))
    ∧ (s.proxyServer = some handle →
        ContextHandler.ensureServer alloc s = (.ok (), s))
    ∧ (∀ s2, ContextHandler.ensureServer alloc s = (.ok (), s2) →
        s2.proxyServer.isSome = true
        ∧ ContextHandler.ensureServer alloc s2 = (.ok (), s2)) := by
  refine ⟨?_, ?_, ?_⟩
  · intro hp
    obtain ⟨h1, h2⟩ := runOps_preserves_port alloc u ops s p hp
    exact ⟨resolveProxyPort_resolved alloc s p hp, h1, h2,
      resolveProxyPort_resolved alloc _ p h1⟩
  · intro hS
    simp [ContextHandler.ensureServer, hS]
  · intro s2 hE
    have hsome : s2.proxyServer.isSome = true := by
      cases hS : s.proxyServer with
      | some h0 =>
          simp [ContextHandler.ensureServer, hS] at hE
          simp [← hE, hS]
      | none =>
          rcases hr : ContextHandler.resolveProxyPort alloc s with ⟨res, s1⟩
          cases res with
          | error e =>
              simp [ContextHandler.ensureServer, hS, hr] at hE
          | ok port =>
              simp [ContextHandler.ensureServer, hS, hr] at hE
              simp [← hE]
    refine ⟨hsome, ?_⟩
    rcases hS2 : s2.proxyServer with _ | h2
    · rw [hS2] at hsome; simp at hsome
    · simp [ContextHandler.ensureServer, hS2]

theorem handler_single_port_and_process_witness :
    wProcState.proxyPort = some 4780
    ∧ wProcState.proxyServer = some { spawnId := 0, port := 4780 }
    ∧ ContextHandler.resolveProxyPort wAlloc wProcState = (.ok 4780, wProcState)
    ∧ (runOps wAlloc wUrl wOps wProcState).proxyPort = some 4780
    ∧ (runOps wAlloc wUrl wOps wProcState).allocCalls = wProcState.allocCalls
    ∧ ContextHandler.resolveProxyPort wAlloc (runOps wAlloc wUrl wOps wProcState) =
        (.ok 4780, runOps wAlloc wUrl wOps wProcState)
    ∧ ContextHandler.ensureServer wAlloc wProcState = (.ok (), wProcState)
    ∧ wProcState.proxyServer.isSome = true := by
  obtain ⟨h1, h2, h3⟩ := handler_single_port_and_process wAlloc wUrl wOps wProcState
    4780 { spawnId := 0, port := 4780 }
  obtain ⟨a, b, c, d⟩ := h1 rfl
  obtain ⟨e, _⟩ := h3 wProcState (h2 rfl)
  exact ⟨rfl, rfl, a, b, c, d, h2 rfl, e⟩

/-! ## Claims about concurrent port resolution -/

lemma runCall_resolved (alloc : Nat → Nat) (p c : Nat) :
    ConcurrentPort.runCall alloc ⟨some p, c⟩ = (⟨some p, c⟩, p) := rfl

lemma runSeqCalls_resolved (alloc : Nat → Nat) (n : Nat) (p c : Nat) :
    ConcurrentPort.runSeqCalls alloc n ⟨some p, c⟩ =
      (⟨some p, c⟩, List.replicate n p) := by
  induction n with
  | zero => rfl
  | succ m ih =>
      simp [ConcurrentPort.runSeqCalls, runCall_resolved, ih, List.replicate]

/-- Claim C1: the claim asserts single-flight semantics for overlapping
resolveProxyPort calls.  On the code this is false: the method has no
single-flight guard, only a memo check before its await point.  Under the
schedule [0, 1, 0, 1] both calls take their memo-check segment before either
resolution completes, so with an allocator handing out 40000, 40001, ... the
allocator is invoked twice (not once) and the two calls resolve to the
distinct ports 40000 and 40001. -/
theorem resolveProxyPort_concurrent_counterexample :
    ConcurrentPort.runSchedule (fun k => 40000 + k) [0, 1, 0, 1]
      (⟨none, 0⟩, [.start, .start]) =
      (⟨some 40001, 2⟩, [.done 40000, .done 40001])
    ∧ (2 : Nat) ≠ 1
    ∧ (40000 : Nat) ≠ 40001 := by
  exact ⟨rfl, by decide, by decide⟩

/-- Claim C1 (amended): single-flight holds only sequentially: for every
sequence of at least one resolveProxyPort call in which each call completes
before the next begins, the Port Allocator is invoked exactly once (by the
first call) and every call resolves to the same port; calls that overlap
before the first resolution completes may each invoke the allocator and may
resolve to different ports. -/
theorem resolveProxyPort_sequential_single_flight
    (alloc : Nat → Nat) (n : Nat) (h : 1 ≤ n) :
    (ConcurrentPort.runSeqCalls alloc n ⟨none, 0⟩).1.allocCalls = 1
    ∧ ∀ r ∈ (ConcurrentPort.runSeqCalls alloc n ⟨none, 0⟩).2, r = alloc 0 := by
  obtain ⟨m, rfl⟩ : ∃ m, n = m + 1 := ⟨n - 1, by omega⟩
  have h1 : ConcurrentPort.runCall alloc ⟨none, 0⟩ = (⟨some (alloc 0), 1⟩, alloc 0) := rfl
  have h2 : ConcurrentPort.runSeqCalls alloc (m + 1) ⟨none, 0⟩ =
      (⟨some (alloc 0), 1⟩, alloc 0 :: List.replicate m (alloc 0)) := by
    simp only [ConcurrentPort.runSeqCalls, h1, runSeqCalls_resolved]
  constructor
  · rw [h2]
  · intro r hr
    rw [h2] at hr
    simp only [List.mem_cons] at hr
    rcases hr with hr | hr
    · exact hr
    · exact List.eq_of_mem_replicate hr

theorem resolveProxyPort_sequential_single_flight_witness :
    (1 : Nat) ≤ 2
    ∧ ((ConcurrentPort.runSeqCalls (fun k => 40000 + k) 2 ⟨none, 0⟩).1.allocCalls = 1
        ∧ ∀ r ∈ (ConcurrentPort.runSeqCalls (fun k => 40000 + k) 2 ⟨none, 0⟩).2,
            r = (fun k => 40000 + k) 0) :=
  ⟨by decide, resolveProxyPort_sequential_single_flight (fun k => 40000 + k) 2 (by decide)⟩

/-! ## Claims about the cluster registry -/

/-- Claim C9: storeCluster followed by getAllClusters round-trips the record:
the stored list contains a record equal to the input on every persisted field
(id, kubeConfigPath, contextName, preferences, workspace — all the fields a
record carries here), and the list's length shows the upsert behaviour: a
record whose id was present overwrites in place, a fresh id appends. -/
theorem storeCluster_roundtrip (clusters : List ClusterBaseInfo)
    (cluster : ClusterBaseInfo) :
    cluster ∈ ClusterStore.getAllClusters (ClusterStore.storeCluster clusters cluster)
    ∧ (ClusterStore.storeCluster clusters cluster).length =
        (if clusters.any (fun cl => cl.id == cluster.id) then clusters.length
         else clusters.length + 1) := by
  have hsto : ({ id := cluster.id, kubeConfigPath := cluster.kubeConfigPath,
                 contextName := cluster.contextName,
                 preferences := cluster.preferences,
                 workspace := cluster.workspace } : ClusterBaseInfo) = cluster := rfl
  have hany : (clusters.findIdx? (fun cl => cl.id == cluster.id)).isSome =
      clusters.any (fun cl => cl.id == cluster.id) := List.findIdx?_isSome
  cases hIdx : clusters.findIdx? (fun cl => cl.id == cluster.id) with
  | none =>
      rw [hIdx] at hany
      simp only [Option.isSome_none] at hany
      constructor
      · simp [ClusterStore.storeCluster, ClusterStore.getAllClusters, hIdx, hsto]
      · simp [ClusterStore.storeCluster, hIdx, ← hany]
  | some index =>
      rw [hIdx] at hany
      simp only [Option.isSome_some] at hany
      have hlt : index < clusters.length :=
        (List.findIdx?_eq_some_iff_findIdx_eq.mp hIdx).1
      constructor
      · have hlen : index < (clusters.set index cluster).length := by
          simpa using hlt
        have hmem : (clusters.set index cluster)[index] ∈ clusters.set index cluster :=
          List.getElem_mem hlen
        rw [List.getElem_set_self] at hmem
        simpa [ClusterStore.storeCluster, ClusterStore.getAllClusters, hIdx, hsto]
          using hmem
      · simp [ClusterStore.storeCluster, hIdx, ← hany]
